import Mathlib

/-!
Verification of the CLARA backend core (audio capture pipeline and session
protocol) against its natural-language specification.

The Python source is shallowly embedded: pure functions become Lean
functions over `List Nat` (bytes, each in 0..255) and `List Char` (text);
the stateful VAD capture loop becomes a structural recursion over a finite
trace of driver reads; fallible operations are modelled with `Except` /
`Option`.  Machine integers are `Nat`/`Int` with explicit `% 2^w` where the
source packs fixed-width fields.
-/

namespace Clara

/-! ## Byte-level helpers (struct.pack / np.frombuffer) -/

/-- Little-endian 4-byte encoding of `n`, as `struct.pack "<I"` writes it
(the Python call raises for `n ≥ 2^32`; the byte image below coincides with
it for all in-range `n`, which every theorem assumes explicitly). -/
def u32le (n : Nat) : List Nat :=
  [n % 256, n / 256 % 256, n / 65536 % 256, n / 16777216 % 256]

/-- Little-endian 2-byte encoding of `n`, as `struct.pack "<H"`. -/
def u16le (n : Nat) : List Nat :=
  [n % 256, n / 256 % 256]

/-- Value of four little-endian bytes. -/
def u32val (b0 b1 b2 b3 : Nat) : Nat :=
  b0 + 256 * b1 + 65536 * b2 + 16777216 * b3

/-- Value of two little-endian bytes. -/
def u16val (b0 b1 : Nat) : Nat :=
  b0 + 256 * b1

theorem u32val_u32le (n : Nat) (h : n < 4294967296) :
    u32val (n % 256) (n / 256 % 256) (n / 65536 % 256) (n / 16777216 % 256) = n := by
  unfold u32val
  omega

theorem u16val_u16le (n : Nat) (h : n < 65536) :
    u16val (n % 256) (n / 256 % 256) = n := by
  unfold u16val
  omega

/-- One signed 16-bit sample from two little-endian bytes (two's
complement), as `np.frombuffer(..., dtype=np.int16)` reads it. -/
def i16OfBytes (b0 b1 : Nat) : Int :=
  let u := b0 % 256 + 256 * (b1 % 256)
  if u < 32768 then (u : Int) else (u : Int) - 65536

/-- Decode a mono int16 PCM byte string into its samples (pairs of bytes,
little-endian).  The source only ever applies this to even-length buffers
(`np.frombuffer` would raise on an odd length). -/
def bytesToI16 : List Nat → List Int
  | b0 :: b1 :: rest => i16OfBytes b0 b1 :: bytesToI16 rest
  | _ => []

/-! ## WAV encoder (`_build_wav_from_mono_bytes`, `_build_wav_from_chunks`) -/

/-- `_build_wav_from_mono_bytes(mono)` from `audio_pipeline.py`, with the
global `AUDIO_SAMPLE_RATE` made an explicit parameter.  Empty input yields
an empty byte string; otherwise a 44-byte RIFF/WAVE header followed by the
payload, with `n_frames = len(mono) // 2`. -/
def buildWavFromMonoBytes (sampleRate : Nat) (mono : List Nat) : List Nat :=
  if mono.length = 0 then []
  else
    let nFrames := mono.length / 2
    [82, 73, 70, 70] ++ u32le (36 + nFrames * 2) ++
    [87, 65, 86, 69, 102, 109, 116, 32] ++
    u32le 16 ++ u16le 1 ++ u16le 1 ++ u32le sampleRate ++
    u32le (sampleRate * 2) ++ u16le 2 ++ u16le 16 ++
    [100, 97, 116, 97] ++ u32le (nFrames * 2) ++ mono

/-- `_build_wav_from_chunks(chunks)`: join the chunks, then the same header
construction. -/
def buildWavFromChunks (sampleRate : Nat) (chunks : List (List Nat)) : List Nat :=
  buildWavFromMonoBytes sampleRate chunks.flatten

/-- Decoded WAV header fields, in the order the 44-byte canonical header
stores them. -/
structure WavHeader where
  riffChunkSize : Nat
  fmtSize : Nat
  formatTag : Nat
  numChannels : Nat
  sampleRate : Nat
  byteRate : Nat
  blockAlign : Nat
  bitsPerSample : Nat
  dataChunkSize : Nat
  deriving Repr, DecidableEq

/-- Four little-endian bytes of `bs` starting at offset `off`. -/
def readU32 (bs : List Nat) (off : Nat) : Nat :=
  u32val (bs.getD off 0) (bs.getD (off + 1) 0) (bs.getD (off + 2) 0) (bs.getD (off + 3) 0)

/-- Two little-endian bytes of `bs` starting at offset `off`. -/
def readU16 (bs : List Nat) (off : Nat) : Nat :=
  u16val (bs.getD off 0) (bs.getD (off + 1) 0)

/-- A straightforward parser of the canonical 44-byte mono WAV container:
checks the RIFF/WAVE/fmt/data magics, reads every header field at its fixed
offset, and returns the payload when its length matches `dataChunkSize`. -/
def decodeWav (bs : List Nat) : Option (WavHeader × List Nat) :=
  if bs.take 4 = [82, 73, 70, 70]
      ∧ (bs.drop 8).take 8 = [87, 65, 86, 69, 102, 109, 116, 32]
      ∧ (bs.drop 36).take 4 = [100, 97, 116, 97]
      ∧ (bs.drop 44).length = readU32 bs 40 then
    some ({ riffChunkSize := readU32 bs 4
            fmtSize := readU32 bs 16
            formatTag := readU16 bs 20
            numChannels := readU16 bs 22
            sampleRate := readU32 bs 24
            byteRate := readU32 bs 28
            blockAlign := readU16 bs 32
            bitsPerSample := readU16 bs 34
            dataChunkSize := readU32 bs 40 }, bs.drop 44)
  else none

/-- The number of bytes the encoder writes after the `data` chunk header:
the whole payload, whatever its parity. -/
def wavPayloadBytes (sampleRate : Nat) (mono : List Nat) : List Nat :=
  (buildWavFromMonoBytes sampleRate mono).drop 44

theorem buildWav_cons (sampleRate : Nat) (mono : List Nat) (h : mono ≠ []) :
    buildWavFromMonoBytes sampleRate mono =
      82 :: 73 :: 70 :: 70 ::
      (36 + mono.length / 2 * 2) % 256 :: (36 + mono.length / 2 * 2) / 256 % 256 ::
      (36 + mono.length / 2 * 2) / 65536 % 256 :: (36 + mono.length / 2 * 2) / 16777216 % 256 ::
      87 :: 65 :: 86 :: 69 :: 102 :: 109 :: 116 :: 32 ::
      16 :: 0 :: 0 :: 0 :: 1 :: 0 :: 1 :: 0 ::
      sampleRate % 256 :: sampleRate / 256 % 256 ::
      sampleRate / 65536 % 256 :: sampleRate / 16777216 % 256 ::
      sampleRate * 2 % 256 :: sampleRate * 2 / 256 % 256 ::
      sampleRate * 2 / 65536 % 256 :: sampleRate * 2 / 16777216 % 256 ::
      2 :: 0 :: 16 :: 0 ::
      100 :: 97 :: 116 :: 97 ::
      mono.length / 2 * 2 % 256 :: mono.length / 2 * 2 / 256 % 256 ::
      mono.length / 2 * 2 / 65536 % 256 :: mono.length / 2 * 2 / 16777216 % 256 ::
      mono := by
  have hlen : mono.length ≠ 0 := by
    intro hc
    exact h (List.length_eq_zero.mp hc)
  simp [buildWavFromMonoBytes, hlen, u32le, u16le]

/-- **C1.** For every mono 16-bit PCM byte buffer of even length `L > 0`
(bytes in range, sizes within the 32-bit fields `struct.pack` accepts), the
WAV encoder produces RIFF/WAVE bytes whose decoded header has fmt subchunk
size 16, PCM format tag 1, 1 channel, 16 bits per sample, byte rate
`sampleRate*2`, block align 2, `riffChunkSize = 36+L`, `dataChunkSize = L`,
followed by the payload unchanged: decoding recovers the exact buffer,
sample rate, channel count and bit depth. -/
theorem wav_roundtrip_even (sampleRate : Nat) (mono : List Nat)
    (heven : mono.length % 2 = 0) (hpos : 0 < mono.length)
    (hsize : 36 + mono.length < 4294967296) (hrate : sampleRate * 2 < 4294967296) :
    decodeWav (buildWavFromMonoBytes sampleRate mono) =
      some ({ riffChunkSize := 36 + mono.length
              fmtSize := 16
              formatTag := 1
              numChannels := 1
              sampleRate := sampleRate
              byteRate := sampleRate * 2
              blockAlign := 2
              bitsPerSample := 16
              dataChunkSize := mono.length }, mono) := by
  have hne : mono ≠ [] := by
    intro hc
    simp [hc] at hpos
  have hL : mono.length / 2 * 2 = mono.length := by
    omega
  have hrate1 : sampleRate < 4294967296 := by omega
  rw [buildWav_cons sampleRate mono hne, hL]
  simp only [decodeWav, readU32, readU16, List.getD_cons_zero, List.getD_cons_succ,
    List.drop_succ_cons, List.drop_zero, List.take_succ_cons, List.take_zero]
  rw [u32val_u32le (36 + mono.length) (by omega),
      u32val_u32le sampleRate hrate1,
      u32val_u32le (sampleRate * 2) hrate,
      u32val_u32le mono.length (by omega)]
  norm_num [u16val, u32val]

/-- Witness for `wav_roundtrip_even` at sample rate 16000 and payload `[7, 9]`. -/
theorem wav_roundtrip_even_witness :
    decodeWav (buildWavFromMonoBytes 16000 [7, 9]) =
      some ({ riffChunkSize := 38
              fmtSize := 16
              formatTag := 1
              numChannels := 1
              sampleRate := 16000
              byteRate := 32000
              blockAlign := 2
              bitsPerSample := 16
              dataChunkSize := 2 }, [7, 9]) :=
  wav_roundtrip_even 16000 [7, 9] (by decide) (by decide) (by decide) (by decide)

/-- **C9.** A zero-length mono PCM input encodes to an empty byte result
(both the mono-bytes builder and the chunk builder on an empty chunk list),
never a header-only 44-byte WAV. -/
theorem wav_empty_input_empty_output (sampleRate : Nat) :
    buildWavFromMonoBytes sampleRate [] = []
      ∧ buildWavFromChunks sampleRate [] = []
      ∧ (buildWavFromMonoBytes sampleRate []).length = 0 := by
  refine ⟨rfl, ?_, rfl⟩
  simp [buildWavFromChunks, buildWavFromMonoBytes]

/-- **C5 counterexample.** On the odd-length payload `[7]` the encoder
writes all 1 payload bytes after the `data` chunk header but records
`dataChunkSize = 0`, so `dataChunkSize ≠ payload.length`. -/
theorem wav_datasize_odd_counterexample :
    wavPayloadBytes 16000 [7] = [7]
      ∧ readU32 (buildWavFromMonoBytes 16000 [7]) 40 ≠ (wavPayloadBytes 16000 [7]).length := by
  decide

/-- **C5 amended.** For every nonempty payload `mono` of length `L` (with
`36 + L` in 32-bit range), the container records
`dataChunkSize = 2 * (L / 2)` and `riffChunkSize = 36 + dataChunkSize`,
while the bytes written after the `data` header are the entire payload
(length `L`); for even `L` this gives `dataChunkSize = L` as claimed, for
odd `L` it undercounts the written bytes by one.  (`_build_wav_from_chunks`
is the same construction applied to the joined chunks, by definition.) -/
theorem wav_size_invariant (sampleRate : Nat) (mono : List Nat)
    (hne : mono ≠ []) (hsize : 36 + mono.length < 4294967296) :
    readU32 (buildWavFromMonoBytes sampleRate mono) 40 = mono.length / 2 * 2
      ∧ readU32 (buildWavFromMonoBytes sampleRate mono) 4 =
          36 + mono.length / 2 * 2
      ∧ wavPayloadBytes sampleRate mono = mono := by
  rw [wavPayloadBytes, buildWav_cons sampleRate mono hne]
  simp only [readU32, List.getD_cons_zero, List.getD_cons_succ, List.drop_succ_cons,
    List.drop_zero]
  refine ⟨?_, ?_, by simp⟩
  · exact u32val_u32le (mono.length / 2 * 2) (by omega)
  · exact u32val_u32le (36 + mono.length / 2 * 2) (by omega)

/-- Witness for `wav_size_invariant` at sample rate 16000 and payload `[7]`. -/
theorem wav_size_invariant_witness :
    readU32 (buildWavFromMonoBytes 16000 [7]) 40 = 0
      ∧ readU32 (buildWavFromMonoBytes 16000 [7]) 4 = 36
      ∧ wavPayloadBytes 16000 [7] = [7] :=
  wav_size_invariant 16000 [7] (by decide) (by decide)

/-! ## Device resolver (`_resolve_input_device`) -/

/-- One entry of `sd.query_devices()`: the fields the resolver consults. -/
structure AudioDevice where
  name : List Char
  maxInputChannels : Nat
  deriving Repr, DecidableEq

/-- Does `hay` start with `needle`? -/
def startsWithSeq : List Char → List Char → Bool
  | [], _ => true
  | _ :: _, [] => false
  | a :: as, b :: bs => a = b && startsWithSeq as bs

/-- Python's `needle in hay` substring test on strings. -/
def containsSeq (needle : List Char) : List Char → Bool
  | [] => startsWithSeq needle []
  | c :: rest => startsWithSeq needle (c :: rest) || containsSeq needle rest

/-- The validity test applied to an explicitly configured device index:
`0 <= idx < len(devices) and devices[idx].get("max_input_channels", 0) > 0`. -/
def deviceIndexValid (devices : List AudioDevice) (idx : Nat) : Bool :=
  decide (idx < devices.length) && decide (0 < (devices.getD idx ⟨[], 0⟩).maxInputChannels)

/-- The per-device test of the name-substring rule: input-capable and the
lowercased configured substring occurs in the lowercased device name. -/
def nameMatches (needle : List Char) (d : AudioDevice) : Bool :=
  decide (0 < d.maxInputChannels) && containsSeq (needle.map Char.toLower) (d.name.map Char.toLower)

/-- The name-substring / default tail of `_resolve_input_device`: first
enumerated input-capable device whose name contains the configured
substring, else the default index. -/
def resolveByName (devices : List AudioDevice) (dflt : Nat) (nameCfg : Option (List Char)) : Nat :=
  match nameCfg with
  | some nm =>
    match devices.findIdx? (fun d => nameMatches nm d) with
    | some i => i
    | none => dflt
  | none => dflt

/-- `_resolve_input_device` from `audio_pipeline.py`, with the module
globals (`sd.query_devices()`, `sd.default.device[0]`,
`AUDIO_INPUT_DEVICE_INDEX`, `AUDIO_INPUT_DEVICE_NAME`) made parameters.
`AUDIO_INPUT_DEVICE_INDEX` is a `Nat` when set (the config layer only
accepts digit strings) and the name, when set, is nonempty. -/
def resolveInputDevice (devices : List AudioDevice) (defaultIn : Option Nat)
    (idxCfg : Option Nat) (nameCfg : Option (List Char)) : Nat :=
  let dflt := defaultIn.getD 0
  match idxCfg with
  | some idx =>
    if deviceIndexValid devices idx then idx else resolveByName devices dflt nameCfg
  | none => resolveByName devices dflt nameCfg

/-- **C3 counterexample.** Devices `[spk (no input), USB Mic (2 input
channels)]`, default index 0, explicit index 9 (invalid), configured name
substring `"mic"`: the resolver returns the name-matched device 1, not the
default 0 — the invalid explicit index falls through to the name rule, not
to the default. -/
theorem resolver_invalid_index_counterexample :
    deviceIndexValid [⟨['s', 'p', 'k'], 0⟩, ⟨['U', 'S', 'B', ' ', 'M', 'i', 'c'], 2⟩] 9 = false
      ∧ nameMatches ['m', 'i', 'c'] ⟨['U', 'S', 'B', ' ', 'M', 'i', 'c'], 2⟩ = true
      ∧ resolveInputDevice [⟨['s', 'p', 'k'], 0⟩, ⟨['U', 'S', 'B', ' ', 'M', 'i', 'c'], 2⟩]
          (some 0) (some 9) (some ['m', 'i', 'c']) = 1
      ∧ (1 : Nat) ≠ 0 := by
  decide

/-- **C3 amended.** A valid explicit index is returned as-is; an invalid
explicit index falls through to the name rule, so when the configured name
substring matches some input-capable device the resolver returns the first
such device (in enumeration order), not the system default. -/
theorem resolver_resolution_order (devices : List AudioDevice) (defaultIn : Option Nat)
    (idx : Nat) (nm : List Char) (i : Nat) :
    (deviceIndexValid devices idx = true →
      ∀ nameCfg, resolveInputDevice devices defaultIn (some idx) nameCfg = idx)
    ∧ (deviceIndexValid devices idx = false →
        devices.findIdx? (fun d => nameMatches nm d) = some i →
        resolveInputDevice devices defaultIn (some idx) (some nm) = i) := by
  constructor
  · intro hvalid nameCfg
    simp [resolveInputDevice, hvalid]
  · intro hinvalid hfind
    simp [resolveInputDevice, hinvalid, resolveByName, hfind]

/-- Witness for `resolver_resolution_order`: index 1 is valid and returned;
index 9 is invalid and the name rule picks device 1. -/
theorem resolver_resolution_order_witness :
    resolveInputDevice [⟨['s', 'p', 'k'], 0⟩, ⟨['U', 'S', 'B', ' ', 'M', 'i', 'c'], 2⟩]
        (some 0) (some 1) none = 1
      ∧ resolveInputDevice [⟨['s', 'p', 'k'], 0⟩, ⟨['U', 'S', 'B', ' ', 'M', 'i', 'c'], 2⟩]
          (some 0) (some 9) (some ['m', 'i', 'c']) = 1 :=
  ⟨(resolver_resolution_order _ (some 0) 1 ['m', 'i', 'c'] 1).1 (by decide) none,
   (resolver_resolution_order _ (some 0) 9 ['m', 'i', 'c'] 1).2 (by decide) (by decide)⟩

/-! ## Text helpers (Python `str.strip`, `str.rsplit(maxsplit=1)`) -/

/-- Remove trailing whitespace. -/
def dropTrailingWs (s : List Char) : List Char :=
  (s.reverse.dropWhile Char.isWhitespace).reverse

/-- Remove a trailing run of non-whitespace characters. -/
def dropTrailingWord (s : List Char) : List Char :=
  (s.reverse.dropWhile (fun c => !c.isWhitespace)).reverse

/-- Remove leading whitespace. -/
def dropLeadingWs (s : List Char) : List Char :=
  s.dropWhile Char.isWhitespace

/-- Python `str.strip()`. -/
def pyStrip (s : List Char) : List Char :=
  dropTrailingWs (dropLeadingWs s)

/-- Python `s.rsplit(maxsplit=1)[0]`: everything before the last
whitespace-separated token.  When `s` holds at most one token the result is
that token stripped (matching Python on every input the source reaches; an
all-whitespace `s`, where Python would raise `IndexError`, is unreachable
there because the caller strips first and truncates a >600-char string). -/
def pyRsplit1First (s : List Char) : List Char :=
  let t := dropTrailingWs s
  let u := dropTrailingWord t
  let v := dropTrailingWs u
  if v = [] then dropLeadingWs t else v

theorem length_dropTrailingWs_le (s : List Char) :
    (dropTrailingWs s).length ≤ s.length := by
  have h := (List.dropWhile_sublist (l := s.reverse) (p := Char.isWhitespace)).length_le
  simpa [dropTrailingWs] using h

theorem length_dropTrailingWord_le (s : List Char) :
    (dropTrailingWord s).length ≤ s.length := by
  have h := (List.dropWhile_sublist (l := s.reverse) (p := fun c => !c.isWhitespace)).length_le
  simpa [dropTrailingWord] using h

theorem length_dropLeadingWs_le (s : List Char) :
    (dropLeadingWs s).length ≤ s.length :=
  (List.dropWhile_sublist (l := s) (p := Char.isWhitespace)).length_le

theorem length_pyRsplit1First_le (s : List Char) :
    (pyRsplit1First s).length ≤ s.length := by
  have h1 := length_dropTrailingWs_le s
  have h2 := length_dropTrailingWord_le (dropTrailingWs s)
  have h3 := length_dropTrailingWs_le (dropTrailingWord (dropTrailingWs s))
  have h4 := length_dropLeadingWs_le (dropTrailingWs s)
  by_cases h : dropTrailingWs (dropTrailingWord (dropTrailingWs s)) = []
  · simp only [pyRsplit1First, h, if_pos]
    omega
  · simp only [pyRsplit1First, h, if_neg, ite_false]
    omega

/-! ## Session data model (`main.py`) -/

/-- A conversation message as built in `process_user_text_and_reply` and
the greeting paths. -/
structure Message where
  id : List Char
  role : String
  text : List Char
  deriving Repr, DecidableEq

/-- The non-null structured payload fields used by `main.py`. -/
structure PayloadFields where
  messages : Option (List Message) := none
  isProcessing : Option Bool := none
  isSpeaking : Option Bool := none
  audioBase64 : Option (List Nat) := none
  error : Option String := none
  errorCode : Option String := none
  deriving Repr, DecidableEq

/-- An outbound payload: `None`, a structured object, or the inbound
message echoed back verbatim (kept opaque). -/
inductive Payload where
  | null
  | fields (f : PayloadFields)
  | echo (raw : Nat)
  deriving Repr, DecidableEq

/-- The outbound envelope `{state, payload}`. -/
structure Envelope where
  state : Int
  payload : Payload
  deriving Repr, DecidableEq

/-- Per-connection session state created by `websocket_clara`. -/
structure Session where
  language : Option String
  languageCode : Option String
  messages : List Message
  cachedGreetingAudio : Option (List Nat)
  cachedGreetingMessage : Option Message
  deriving Repr, DecidableEq

/-- The session dictionary as initialized on connection accept. -/
def initialSession : Session :=
  ⟨none, none, [], none, none⟩

/-- `LANGUAGE_NAME_TO_CODE_KEY` from `config.py`. -/
def languageNameToCodeKey (n : String) : Option String :=
  if n = "English" then some "en"
  else if n = "Kannada" then some "kn"
  else if n = "Hindi" then some "hi"
  else if n = "Tamil" then some "ta"
  else if n = "Telugu" then some "te"
  else if n = "Malayalam" then some "ml"
  else none

/-- `TARGET_LANGUAGE_CODES` from `config.py`. -/
def targetLanguageCodes (k : String) : Option String :=
  if k = "en" then some "en-IN"
  else if k = "hi" then some "hi-IN"
  else if k = "kn" then some "kn-IN"
  else if k = "ta" then some "ta-IN"
  else if k = "te" then some "te-IN"
  else if k = "ml" then some "ml-IN"
  else none

/-- `GREETINGS.get(lang, GREETINGS["English"])` from `greetings.py` (the
non-English entries are kept abstract as their byte content never matters
to the session logic; English is the default). -/
def greetingText (lang : String) : List Char :=
  if lang = "English" then
    "Good evening. I am CLARA, your campus assistant. How may I help you today?".data
  else if languageNameToCodeKey lang = none then
    "Good evening. I am CLARA, your campus assistant. How may I help you today?".data
  else
    lang.data

/-- The fixed reply used when the Groq key is absent. -/
def notConfiguredMsg : List Char :=
  "I\x27m sorry, the assistant is not configured.".data

/-- The generic connectivity-failure reply. -/
def connectivityMsg : List Char :=
  ("I\x27m sorry, I couldn\x27t reach the assistant right now. " ++
   "Please check your Groq API key in .env and try again.").data

/-- The explanatory phrase put before the RAG-context fallback extract. -/
def fallbackIntro : List Char :=
  "Based on our college information: ".data

/-- The truncated context extract of the RAG fallback: strip, and when
longer than 600 characters keep the first 597, cut back to a word boundary,
and append an ellipsis. -/
def fallbackTrimmed (context : List Char) : List Char :=
  let trimmed := pyStrip context
  if 600 < trimmed.length then
    pyRsplit1First (trimmed.take 597) ++ ['.', '.', '.']
  else trimmed

/-- Reply-text selection of `process_user_text_and_reply` (lines 94-125):
when the Groq key is absent the fixed unconfigured message is used without
calling Groq; otherwise `groqResult` is the call result (`some c` = it
returned content `c`, stripped on use; `none` = it raised); a `None`/empty
reply falls back to the context extract or the connectivity message. -/
def computeReplyText (configured : Bool) (groqResult : Option (List Char))
    (context : List Char) : List Char :=
  let r : List Char :=
    if configured then
      match groqResult with
      | some c => pyStrip c
      | none => []
    else notConfiguredMsg
  if r = [] then
    if pyStrip context = [] then connectivityMsg
    else fallbackIntro ++ fallbackTrimmed context
  else r

/-- The inbound actions `websocket_clara` dispatches on.  `menuSelect` and
`unknown` carry the inbound message opaquely (it is echoed back);
`malformed` is an unparsable frame. -/
inductive Action where
  | wake
  | languageSelected (language : Option String)
  | conversationStarted
  | userMessage (text : Option (List Char))
  | micToggle
  | micStop
  | menuSelect (raw : Nat)
  | unknown (raw : Nat)
  | malformed
  deriving Repr, DecidableEq

/-- The external collaborators of one connection, as deterministic oracles:
TTS (text, language code → audio or failure), retrieval, the Groq
configuration flag and call, the audio capture result, STT, and the id
suffixes `uuid4().hex` produces. -/
structure Oracles where
  ttsAudio : List Char → String → Option (List Nat)
  ragContext : List Char → List Char
  groqConfigured : Bool
  groqReply : List Char → Option (List Char)
  recordResult : Option (List Nat)
  sttTranscript : List Nat → Option (List Char)
  userId : List Char
  claraId : List Char

/-- `process_user_text_and_reply` (lines 70-140): emit processing, retrieve
context, compute the reply, append the user and assistant messages to the
session history, attempt TTS, emit the result envelope. -/
def processUserTextAndReply (o : Oracles) (s : Session) (text : List Char) :
    Session × List Envelope :=
  let e1 : Envelope := ⟨5, .fields { isProcessing := some true }⟩
  let langCode := s.languageCode.getD "en-IN"
  let context := o.ragContext text
  let replyText := computeReplyText o.groqConfigured (o.groqReply text) context
  let userMsg : Message := ⟨"user-".data ++ o.userId, "user", text⟩
  let claraMsg : Message := ⟨"clara-".data ++ o.claraId, "clara", replyText⟩
  let s2 := { s with messages := s.messages ++ [userMsg, claraMsg] }
  let result : PayloadFields :=
    match o.ttsAudio replyText langCode with
    | some a =>
      { messages := some [userMsg, claraMsg], isProcessing := some false,
        isSpeaking := some true, audioBase64 := some a }
    | none =>
      { messages := some [userMsg, claraMsg], isProcessing := some false,
        isSpeaking := some false,
        error := some "Reply is shown but could not be read aloud." }
  (s2, [e1, ⟨5, .fields result⟩])

/-- The result envelope of a failed capture. -/
def micFailEnvelope : Envelope :=
  ⟨5, .fields { error := some "No speech heard.", errorCode := some "MIC_CAPTURE_FAILED",
                isProcessing := some false }⟩

/-- The result envelope of an empty transcript. -/
def noSpeechEnvelope : Envelope :=
  ⟨5, .fields { error := some "No speech detected.", errorCode := some "NO_SPEECH_DETECTED",
                isProcessing := some false }⟩

/-- One iteration of the `websocket_clara` receive loop (lines 200-295):
the action dispatch, returning the mutated session and the envelopes sent. -/
def handleAction (o : Oracles) (s : Session) : Action → Session × List Envelope
  | .wake => (s, [⟨3, .null⟩])
  | .languageSelected lang? =>
    match lang? with
    | some lang =>
      match languageNameToCodeKey lang with
      | some key =>
        let code := (targetLanguageCodes key).getD "en-IN"
        let g := greetingText lang
        let s1 := { s with language := some lang, languageCode := some code }
        let s2 :=
          match o.ttsAudio g code with
          | some a =>
            { s1 with cachedGreetingAudio := some a,
                      cachedGreetingMessage := some ⟨"greeting".data, "clara", g⟩ }
          | none => s1
        (s2, [⟨5, .null⟩])
      | none => (s, [⟨5, .null⟩])
    | none => (s, [⟨5, .null⟩])
  | .conversationStarted =>
    let lang := s.language.getD "English"
    let g := greetingText lang
    match s.cachedGreetingAudio, s.cachedGreetingMessage with
    | some a, some cm =>
      ({ s with cachedGreetingAudio := none, cachedGreetingMessage := none },
       [⟨5, .fields { messages := some [cm], isSpeaking := some true, audioBase64 := some a }⟩])
    | _, _ =>
      let code := s.languageCode.getD "en-IN"
      let gm : Message := ⟨"greeting".data, "clara", g⟩
      match o.ttsAudio g code with
      | some a =>
        (s, [⟨5, .fields { messages := some [gm], isSpeaking := some true,
                           audioBase64 := some a }⟩])
      | none =>
        (s, [⟨5, .fields { messages := some [gm], isSpeaking := some false,
                           error := some "Could not generate greeting audio." }⟩])
  | .userMessage t =>
    let text := pyStrip (t.getD [])
    if text = [] then
      (s, [⟨5, .fields { error := some "Missing text", isProcessing := some false }⟩])
    else processUserTextAndReply o s text
  | .micToggle =>
    let e1 : Envelope := ⟨5, .fields { isProcessing := some true }⟩
    match o.recordResult with
    | none => (s, [e1, micFailEnvelope])
    | some wav =>
      if wav = [] then (s, [e1, micFailEnvelope])
      else
        match o.sttTranscript wav with
        | none => (s, [e1, noSpeechEnvelope])
        | some tr =>
          if pyStrip tr = [] then (s, [e1, noSpeechEnvelope])
          else
            let r := processUserTextAndReply o s (pyStrip tr)
            (r.1, e1 :: r.2)
  | .micStop => (s, [⟨5, .fields { isProcessing := some false }⟩])
  | .menuSelect raw => (s, [⟨5, .echo raw⟩])
  | .unknown raw => (s, [⟨5, .echo raw⟩])
  | .malformed => (s, [⟨0, .null⟩])

/-- The session after a whole connection lifetime of inbound actions. -/
def runActions (o : Oracles) (s : Session) : List Action → Session
  | [] => s
  | a :: rest => runActions o (handleAction o s a).1 rest

/-- A fixed set of collaborator oracles for concrete runs: no TTS, empty
retrieval, Groq not configured, no capture, no transcript. -/
def oracles0 : Oracles :=
  ⟨fun _ _ => none, fun _ => [], false, fun _ => none, none, fun _ => none, [], []⟩

/-- **C8.** For every inbound `user_message` whose text is empty or missing
(after stripping), the server emits exactly one envelope, state 5 with
payload `{error: "Missing text", isProcessing: false}`, and the session is
returned unchanged — no messages are appended and no reply-pipeline side
effects occur. -/
theorem empty_user_message_no_mutation (o : Oracles) (s : Session)
    (t : Option (List Char)) (h : pyStrip (t.getD []) = []) :
    handleAction o s (.userMessage t) =
      (s, [⟨5, .fields { error := some "Missing text", isProcessing := some false }⟩]) := by
  simp [handleAction, h]

/-- Witness for `empty_user_message_no_mutation` on a whitespace-only text. -/
theorem empty_user_message_no_mutation_witness :
    handleAction oracles0 initialSession (.userMessage (some [' ', ' '])) =
      (initialSession,
       [⟨5, .fields { error := some "Missing text", isProcessing := some false }⟩]) :=
  empty_user_message_no_mutation oracles0 initialSession (some [' ', ' ']) (by decide)

/-- Every message in the session history has role `"user"` or `"clara"`. -/
def rolesOk (s : Session) : Prop :=
  ∀ m ∈ s.messages, m.role = "user" ∨ m.role = "clara"

theorem processUserTextAndReply_fst_messages (o : Oracles) (s : Session) (text : List Char) :
    (processUserTextAndReply o s text).1.messages =
      s.messages ++
        [⟨"user-".data ++ o.userId, "user", text⟩,
         ⟨"clara-".data ++ o.claraId, "clara",
          computeReplyText o.groqConfigured (o.groqReply text) (o.ragContext text)⟩] :=
  rfl

theorem rolesOk_processUserTextAndReply (o : Oracles) (s : Session) (text : List Char)
    (h : rolesOk s) : rolesOk (processUserTextAndReply o s text).1 := by
  intro m hm
  rw [processUserTextAndReply_fst_messages] at hm
  rcases List.mem_append.mp hm with hmem | hmem
  · exact h m hmem
  · simp only [List.mem_cons, List.not_mem_nil, or_false] at hmem
    rcases hmem with hmem | hmem
    · subst hmem
      left
      rfl
    · subst hmem
      right
      rfl

theorem rolesOk_handleAction (o : Oracles) (s : Session) (a : Action)
    (h : rolesOk s) : rolesOk (handleAction o s a).1 := by
  cases a with
  | wake => exact h
  | micStop => exact h
  | menuSelect raw => exact h
  | unknown raw => exact h
  | malformed => exact h
  | languageSelected lang? =>
    cases lang? with
    | none => exact h
    | some lang =>
      cases hk : languageNameToCodeKey lang with
      | none =>
        intro m hm
        exact h m (by simpa [handleAction, hk] using hm)
      | some key =>
        cases ht : o.ttsAudio (greetingText lang) ((targetLanguageCodes key).getD "en-IN") with
        | none =>
          intro m hm
          exact h m (by simpa [handleAction, hk, ht] using hm)
        | some aa =>
          intro m hm
          exact h m (by simpa [handleAction, hk, ht] using hm)
  | conversationStarted =>
    intro m hm
    refine h m ?_
    revert hm
    simp only [handleAction]
    rcases s.cachedGreetingAudio with _ | aa <;> rcases s.cachedGreetingMessage with _ | cm <;>
      rcases o.ttsAudio (greetingText (s.language.getD "English")) (s.languageCode.getD "en-IN")
        with _ | bb <;> simp
  | userMessage t =>
    by_cases he : pyStrip (t.getD []) = []
    · intro m hm
      exact h m (by simpa [handleAction, he] using hm)
    · have hstep : (handleAction o s (.userMessage t)).1 =
          (processUserTextAndReply o s (pyStrip (t.getD []))).1 := by
        simp [handleAction, he]
      rw [hstep]
      exact rolesOk_processUserTextAndReply o s _ h
  | micToggle =>
    cases hr : o.recordResult with
    | none =>
      intro m hm
      exact h m (by simpa [handleAction, hr] using hm)
    | some wav =>
      by_cases hw : wav = []
      · intro m hm
        exact h m (by simpa [handleAction, hr, hw] using hm)
      · cases hs : o.sttTranscript wav with
        | none =>
          intro m hm
          exact h m (by simpa [handleAction, hr, hw, hs] using hm)
        | some tr =>
          by_cases he : pyStrip tr = []
          · intro m hm
            exact h m (by simpa [handleAction, hr, hw, hs, he] using hm)
          · have hstep : (handleAction o s .micToggle).1 =
                (processUserTextAndReply o s (pyStrip tr)).1 := by
              simp [handleAction, hr, hw, hs, he]
            rw [hstep]
            exact rolesOk_processUserTextAndReply o s _ h

theorem rolesOk_runActions (o : Oracles) (acts : List Action) :
    ∀ s : Session, rolesOk s → rolesOk (runActions o s acts) := by
  induction acts with
  | nil => intro s h; exact h
  | cons a rest ih =>
    intro s h
    exact ih (handleAction o s a).1 (rolesOk_handleAction o s a h)

/-- **C6 counterexample.** After processing one non-empty `user_message`,
the appended assistant message has role `"clara"`, which is neither
`"assistant"` nor `"user"` — so not every appended message has role
`"user"` or `"assistant"`. -/
theorem assistant_role_counterexample :
    ((runActions oracles0 initialSession [.userMessage (some ['h', 'i'])]).messages.getD 1
        ⟨[], "", []⟩).role = "clara"
      ∧ ("clara" : String) ≠ "assistant" ∧ ("clara" : String) ≠ "user" := by
  refine ⟨rfl, by decide, by decide⟩

/-- **C6 amended.** Every message appended to a session's history over the
lifetime of the connection has role `"user"` or `"clara"` (the code's name
for the assistant role), for every action sequence and collaborator
behavior. -/
theorem message_roles_user_or_clara (o : Oracles) (acts : List Action) :
    ∀ m ∈ (runActions o initialSession acts).messages,
      m.role = "user" ∨ m.role = "clara" := by
  have h0 : rolesOk initialSession := by
    intro m hm
    cases hm
  exact rolesOk_runActions o acts initialSession h0

/-- Witness for `message_roles_user_or_clara`: the user message appended by
one concrete `user_message` action. -/
theorem message_roles_user_or_clara_witness :
    (⟨"user-".data, "user", ['h', 'i']⟩ : Message).role = "user"
      ∨ (⟨"user-".data, "user", ['h', 'i']⟩ : Message).role = "clara" :=
  message_roles_user_or_clara oracles0 [.userMessage (some ['h', 'i'])]
    ⟨"user-".data, "user", ['h', 'i']⟩ (by decide)

/-- A short nonempty retrieval context used in concrete runs. -/
def ctx0 : List Char :=
  "Campus library closes at 8 pm.".data

/-- **C7 counterexample.** With the text-generation collaborator not
configured and a non-empty retrieved context, the reply is the fixed
"assistant is not configured" message: it is not the explanatory prefix
followed by a truncated extract of the context (it does not even contain
the context). -/
theorem fallback_not_configured_counterexample :
    computeReplyText false none ctx0 = notConfiguredMsg
      ∧ pyStrip ctx0 ≠ []
      ∧ containsSeq ctx0 (computeReplyText false none ctx0) = false := by
  refine ⟨rfl, by decide, by decide⟩

/-- **C7 amended.**  The reply fallback ladder: when the collaborator is
not configured the reply is the fixed unconfigured-service message
regardless of context; when it is configured but the call fails, a
non-empty context yields the explanatory prefix plus the context extract
(stripped; truncated on a word boundary with an ellipsis only when longer
than 600 characters, the extract never exceeding 600 characters), and an
empty context yields the generic connectivity-failure message; in every
case the reply text is non-empty, and the reply pipeline always emits
exactly two state-5 envelopes (never a hard protocol error). -/
theorem reply_fallback_ladder (cfg : Bool) (g : Option (List Char)) (ctx : List Char)
    (o : Oracles) (s : Session) (text : List Char) :
    computeReplyText false g ctx = notConfiguredMsg
      ∧ (pyStrip ctx ≠ [] →
          computeReplyText true none ctx = fallbackIntro ++ fallbackTrimmed ctx)
      ∧ (pyStrip ctx = [] → computeReplyText true none ctx = connectivityMsg)
      ∧ (600 < (pyStrip ctx).length → (fallbackTrimmed ctx).length ≤ 600)
      ∧ computeReplyText cfg g ctx ≠ []
      ∧ (processUserTextAndReply o s text).2.map Envelope.state = [5, 5] := by
  have hncm : notConfiguredMsg ≠ [] := by decide
  have hcm : connectivityMsg ≠ [] := by decide
  have hfi : fallbackIntro ≠ [] := by decide
  refine ⟨?_, ?_, ?_, ?_, ?_, rfl⟩
  · simp [computeReplyText, hncm]
  · intro hctx
    simp [computeReplyText, hctx]
  · intro hctx
    simp [computeReplyText, hctx]
  · intro hlong
    have hr := length_pyRsplit1First_le ((pyStrip ctx).take 597)
    have ht : ((pyStrip ctx).take 597).length ≤ 597 := by
      simp
    have hdots : (['.', '.', '.'] : List Char).length = 3 := rfl
    simp only [fallbackTrimmed]
    rw [if_pos hlong]
    simp only [List.length_append]
    omega
  · cases cfg with
    | false => simp [computeReplyText, hncm]
    | true =>
      cases g with
      | none =>
        by_cases hctx : pyStrip ctx = [] <;>
          simp [computeReplyText, hctx, hcm, hfi]
      | some c =>
        by_cases hc : pyStrip c = []
        · by_cases hctx : pyStrip ctx = [] <;>
            simp [computeReplyText, hc, hctx, hcm, hfi]
        · simp [computeReplyText, hc]

theorem dropWhile_replicate_of_head_false {p : Char → Bool} {c : Char} (h : p c = false)
    (n : Nat) : List.dropWhile p (List.replicate n c) = List.replicate n c := by
  cases n with
  | zero => rfl
  | succ m => simp [List.replicate_succ, List.dropWhile_cons, h]

theorem pyStrip_replicate_a (n : Nat) :
    pyStrip (List.replicate n 'a') = List.replicate n 'a' := by
  unfold pyStrip dropLeadingWs dropTrailingWs
  rw [dropWhile_replicate_of_head_false (by decide), List.reverse_replicate,
    dropWhile_replicate_of_head_false (by decide), List.reverse_replicate]

/-- Witness for `reply_fallback_ladder` at a nonempty short context, an
empty context, and an over-long context. -/
theorem reply_fallback_ladder_witness :
    computeReplyText true none ctx0 = fallbackIntro ++ fallbackTrimmed ctx0
      ∧ computeReplyText true none [] = connectivityMsg
      ∧ (fallbackTrimmed (List.replicate 601 'a')).length ≤ 600
      ∧ computeReplyText false none ctx0 ≠ []
      ∧ (processUserTextAndReply oracles0 initialSession ['h', 'i']).2.map Envelope.state
          = [5, 5] := by
  have hlong : 600 < (pyStrip (List.replicate 601 'a')).length := by
    rw [pyStrip_replicate_a, List.length_replicate]
    omega
  exact
    ⟨(reply_fallback_ladder false none ctx0 oracles0 initialSession ['h', 'i']).2.1 (by decide),
     (reply_fallback_ladder false none [] oracles0 initialSession ['h', 'i']).2.2.1 rfl,
     (reply_fallback_ladder false none (List.replicate 601 'a') oracles0 initialSession
        ['h', 'i']).2.2.2.1 hlong,
     (reply_fallback_ladder false none ctx0 oracles0 initialSession ['h', 'i']).2.2.2.2.1,
     (reply_fallback_ladder false none ctx0 oracles0 initialSession ['h', 'i']).2.2.2.2.2⟩

/-! ## Loudness gate (`_compute_rms`) -/

/-- The square of `_compute_rms(mono_bytes)`: the float result is
`sqrt(mean(sample²)) / 32768`, so its square is `Σ s² / (n · 32768²)`; the
source compares `rms < threshold` with a nonnegative configured threshold,
which is equivalent to `rms² < threshold²` — all theorems phrase the gate
through this square. -/
def computeRmsSq (mono : List Nat) : ℚ :=
  if mono.length < 2 then 0
  else
    ((((bytesToI16 mono).map (fun s => s * s)).sum : Int) : ℚ) /
      (((bytesToI16 mono).length : ℚ) * 1073741824)

/-! ## VAD capture loop (`record_audio`, VAD mode) -/

/-- `CaptureState`: the loop variables of the VAD-mode `record_audio`. -/
structure VadState where
  accumulated : List (List Nat)
  consecutiveSilence : Nat
  speechStarted : Bool
  framesWithoutSpeech : Nat
  deriving Repr, DecidableEq

/-- The derived constants the VAD loop runs with. -/
structure VadCfg where
  bpf : Nat
  stopThresh : Nat
  timeoutFrames : Nat
  sampleRate : Nat
  threshSq : ℚ

/-- `_VAD_FRAME_MS`: nearest supported frame duration. -/
def normalizeVadFrameMs (cfg : Nat) : Nat :=
  if cfg ≤ 10 then 10 else if cfg ≤ 20 then 20 else 30

/-- `silence_frames_to_stop = (AUDIO_SILENCE_STOP_MS + f - 1) // f`. -/
def silenceFramesToStop (ms frameMs : Nat) : Nat :=
  (ms + frameMs - 1) / frameMs

/-- `speech_timeout_frames = max(1, (AUDIO_SPEECH_TIMEOUT_MS + f - 1) // f)`. -/
def speechTimeoutFrames (ms frameMs : Nat) : Nat :=
  max 1 ((ms + frameMs - 1) / frameMs)

/-- The source's ceiling-division threshold is the exact ceiling. -/
theorem silenceFramesToStop_eq_ceil (ms frameMs : Nat) (h : 0 < frameMs) :
    silenceFramesToStop ms frameMs = (ms + frameMs - 1) / frameMs ∧
      frameMs * silenceFramesToStop ms frameMs ≥ ms ∧
      (0 < ms → frameMs * (silenceFramesToStop ms frameMs - 1) < ms) := by
  have hdm := Nat.div_add_mod (ms + frameMs - 1) frameMs
  have hml : (ms + frameMs - 1) % frameMs < frameMs := Nat.mod_lt _ h
  refine ⟨rfl, ?_, ?_⟩
  · unfold silenceFramesToStop
    omega
  · intro hms
    unfold silenceFramesToStop
    have hq : 1 ≤ (ms + frameMs - 1) / frameMs := by
      rw [Nat.one_le_div_iff h]
      omega
    have hexp : frameMs * ((ms + frameMs - 1) / frameMs - 1) =
        frameMs * ((ms + frameMs - 1) / frameMs) - frameMs * 1 := by
      rw [Nat.mul_sub]
    omega

/-- The maximal run of full `bpf`-byte frames at the start of `raw`
(the offsets `0, bpf, 2·bpf, …` the inner `for` visits), by fuel. -/
def splitFramesAux (bpf : Nat) : Nat → List Nat → List (List Nat)
  | 0, _ => []
  | fuel + 1, raw =>
    if 0 < bpf ∧ bpf ≤ raw.length then
      raw.take bpf :: splitFramesAux bpf fuel (raw.drop bpf)
    else []

/-- The full VAD sub-frames of one block. -/
def splitFrames (bpf : Nat) (raw : List Nat) : List (List Nat) :=
  splitFramesAux bpf raw.length raw

/-- The inner per-frame loop of one block: classify each sub-frame,
returning the index of the triggering silence frame (if the stop condition
fires inside this block) together with the updated `speech_started` and
`consecutive_silence`. -/
def scanFrames (orc : List Nat → Bool) (stopThresh : Nat) :
    List (List Nat) → Bool → Nat → Nat → Option Nat × Bool × Nat
  | [], ss, cs, _ => (none, ss, cs)
  | f :: rest, ss, cs, idx =>
    if orc f then scanFrames orc stopThresh rest true 0 (idx + 1)
    else if ss ∧ stopThresh ≤ cs + 1 then (some idx, ss, cs + 1)
    else scanFrames orc stopThresh rest ss (cs + 1) (idx + 1)

/-- Lines 162-167: on the stop condition, build the WAV from the
accumulated chunks and apply the loudness gate
(`len(mono) >= BYTES_PER_FRAME and rms < threshold → None`). -/
def finalizeCapture (cfg : VadCfg) (chunks : List (List Nat)) : Option (List Nat) :=
  let wav := buildWavFromChunks cfg.sampleRate chunks
  let mono := chunks.flatten
  if cfg.bpf ≤ mono.length ∧ computeRmsSq mono < cfg.threshSq then none else wav

/-- How a finite-trace run of the capture loop ends: the function returned
a value, an exception was raised, or the supplied trace ran out with the
loop still waiting (the real stream blocks for more data there). -/
inductive RunOutcome where
  | finished (r : Option (List Nat))
  | raised (e : String)
  | outOfInput (st : VadState)
  deriving Repr, DecidableEq

/-- The VAD-mode `while True` loop of `record_audio` (lines 143-175), one
iteration per driver read: short blocks are skipped, each full sub-frame is
classified, the stop condition finalizes with all bytes before the
triggering frame, and the pre-speech timeout aborts with `None`. -/
def vadLoop (cfg : VadCfg) (orc : List Nat → Bool) :
    List (Except String (List Nat)) → VadState → RunOutcome
  | [], st => .outOfInput st
  | .error e :: _, _ => .raised e
  | .ok raw :: rest, st =>
    if raw.length < cfg.bpf then vadLoop cfg orc rest st
    else
      match scanFrames orc cfg.stopThresh (splitFrames cfg.bpf raw)
          st.speechStarted st.consecutiveSilence 0 with
      | (some i, _, _) =>
        .finished (finalizeCapture cfg (st.accumulated ++ [raw.take (i * cfg.bpf)]))
      | (none, ss, cs) =>
        if ss then vadLoop cfg orc rest ⟨st.accumulated ++ [raw], cs, true, 0⟩
        else if cfg.timeoutFrames ≤ st.framesWithoutSpeech + 1 then .finished none
        else vadLoop cfg orc rest ⟨st.accumulated ++ [raw], cs, false, st.framesWithoutSpeech + 1⟩

/-- The capture state at loop entry. -/
def initialVadState : VadState :=
  ⟨[], 0, false, 0⟩

/-- `"fixed"` or `"vad"` (config coerces anything else to `"fixed"`). -/
inductive RMode where
  | fixed
  | vad
  deriving Repr, DecidableEq

/-- One call of `record_audio`'s environment: everything the surrounding
process supplies — device enumeration (which may raise), the device
configuration, the record mode, the downmixed fixed-duration capture (which
may raise), the trace of downmixed stream reads (each of which may raise),
the VAD classifier, and the audio configuration values. -/
structure RecordEnv where
  queryDevices : Except String (List AudioDevice)
  defaultIn : Option Nat
  idxCfg : Option Nat
  nameCfg : Option (List Char)
  mode : RMode
  fixedMono : Except String (List Nat)
  blocks : List (Except String (List Nat))
  vadOracle : List Nat → Bool
  sampleRate : Nat
  vadFrameMsCfg : Nat
  silenceStopMs : Nat
  speechTimeoutMs : Nat
  threshSq : ℚ

/-- The VAD constants `record_audio` derives from the environment. -/
def vadCfgOf (env : RecordEnv) : VadCfg :=
  let f := normalizeVadFrameMs env.vadFrameMsCfg
  ⟨env.sampleRate * f / 1000 * 2,
   silenceFramesToStop env.silenceStopMs f,
   speechTimeoutFrames env.speechTimeoutMs f,
   env.sampleRate, env.threshSq⟩

/-- The body of `record_audio` (lines 114-175) without its `except`
handler: resolve the device, then either the fixed-duration path
(`_record_fixed_duration`: capture, loudness gate, WAV build) or the VAD
loop. -/
def recordAudioRun (env : RecordEnv) : RunOutcome :=
  match env.queryDevices with
  | .error e => .raised e
  | .ok devices =>
    let _deviceId := resolveInputDevice devices env.defaultIn env.idxCfg env.nameCfg
    match env.mode with
    | .fixed =>
      match env.fixedMono with
      | .error e => .raised e
      | .ok mono =>
        if computeRmsSq mono < env.threshSq then .finished none
        else .finished (some (buildWavFromMonoBytes env.sampleRate mono))
    | .vad => vadLoop (vadCfgOf env) env.vadOracle env.blocks initialVadState

/-- `record_audio` itself: the body under `try`, with `except Exception:
return None`.  A trace that runs out of input is reported as `None` as well
(the real loop would still be blocked waiting on the driver). -/
def recordAudio (env : RecordEnv) : Option (List Nat) :=
  match recordAudioRun env with
  | .finished r => r
  | .raised _ => none
  | .outOfInput _ => none

theorem splitFramesAux_nil (bpf fuel : Nat) : splitFramesAux bpf fuel [] = [] := by
  cases fuel with
  | zero => rfl
  | succ n =>
    simp only [splitFramesAux, List.length_nil]
    rw [if_neg (by omega)]

theorem splitFrames_of_length_eq (bpf : Nat) (raw : List Nat) (hb : 0 < bpf)
    (h : raw.length = bpf) : splitFrames bpf raw = [raw] := by
  unfold splitFrames
  rw [h]
  obtain ⟨n, rfl⟩ : ∃ n, bpf = n + 1 := ⟨bpf - 1, by omega⟩
  simp only [splitFramesAux]
  rw [if_pos (by omega), List.take_of_length_le (by omega), List.drop_eq_nil_of_le (by omega),
    splitFramesAux_nil]

theorem vadLoop_cons_skip (cfg : VadCfg) (orc : List Nat → Bool) (raw : List Nat)
    (rest : List (Except String (List Nat))) (st : VadState) (h : raw.length < cfg.bpf) :
    vadLoop cfg orc (.ok raw :: rest) st = vadLoop cfg orc rest st := by
  simp [vadLoop, h]

theorem vadLoop_step_speech (cfg : VadCfg) (orc : List Nat → Bool) (raw : List Nat)
    (rest : List (Except String (List Nat))) (st : VadState)
    (hb : 0 < cfg.bpf) (hlen : raw.length = cfg.bpf) (ht : orc raw = true) :
    vadLoop cfg orc (.ok raw :: rest) st =
      vadLoop cfg orc rest ⟨st.accumulated ++ [raw], 0, true, 0⟩ := by
  simp only [vadLoop]
  rw [if_neg (by omega), splitFrames_of_length_eq cfg.bpf raw hb hlen]
  simp [scanFrames, ht]

theorem vadLoop_step_silence_pre (cfg : VadCfg) (orc : List Nat → Bool) (raw : List Nat)
    (rest : List (Except String (List Nat))) (st : VadState)
    (hb : 0 < cfg.bpf) (hlen : raw.length = cfg.bpf) (hf : orc raw = false)
    (hss : st.speechStarted = false)
    (hto : st.framesWithoutSpeech + 1 < cfg.timeoutFrames) :
    vadLoop cfg orc (.ok raw :: rest) st =
      vadLoop cfg orc rest
        ⟨st.accumulated ++ [raw], st.consecutiveSilence + 1, false,
         st.framesWithoutSpeech + 1⟩ := by
  have hn : ¬ cfg.timeoutFrames ≤ st.framesWithoutSpeech + 1 := by omega
  simp only [vadLoop]
  rw [if_neg (by omega), splitFrames_of_length_eq cfg.bpf raw hb hlen]
  simp [scanFrames, hf, hss, hn]

theorem vadLoop_step_silence_timeout (cfg : VadCfg) (orc : List Nat → Bool) (raw : List Nat)
    (rest : List (Except String (List Nat))) (st : VadState)
    (hb : 0 < cfg.bpf) (hlen : raw.length = cfg.bpf) (hf : orc raw = false)
    (hss : st.speechStarted = false)
    (hto : cfg.timeoutFrames ≤ st.framesWithoutSpeech + 1) :
    vadLoop cfg orc (.ok raw :: rest) st = .finished none := by
  simp only [vadLoop]
  rw [if_neg (by omega), splitFrames_of_length_eq cfg.bpf raw hb hlen]
  simp [scanFrames, hf, hss, hto]

theorem vadLoop_step_silence_post (cfg : VadCfg) (orc : List Nat → Bool) (raw : List Nat)
    (rest : List (Except String (List Nat))) (st : VadState)
    (hb : 0 < cfg.bpf) (hlen : raw.length = cfg.bpf) (hf : orc raw = false)
    (hss : st.speechStarted = true)
    (hcs : st.consecutiveSilence + 1 < cfg.stopThresh) :
    vadLoop cfg orc (.ok raw :: rest) st =
      vadLoop cfg orc rest
        ⟨st.accumulated ++ [raw], st.consecutiveSilence + 1, true, 0⟩ := by
  have hn : ¬ cfg.stopThresh ≤ st.consecutiveSilence + 1 := by omega
  simp only [vadLoop]
  rw [if_neg (by omega), splitFrames_of_length_eq cfg.bpf raw hb hlen]
  simp [scanFrames, hf, hss, hn]

theorem vadLoop_step_trigger (cfg : VadCfg) (orc : List Nat → Bool) (raw : List Nat)
    (rest : List (Except String (List Nat))) (st : VadState)
    (hb : 0 < cfg.bpf) (hlen : raw.length = cfg.bpf) (hf : orc raw = false)
    (hss : st.speechStarted = true)
    (hcs : cfg.stopThresh ≤ st.consecutiveSilence + 1) :
    vadLoop cfg orc (.ok raw :: rest) st =
      .finished (finalizeCapture cfg (st.accumulated ++ [[]])) := by
  simp only [vadLoop]
  rw [if_neg (by omega), splitFrames_of_length_eq cfg.bpf raw hb hlen]
  simp [scanFrames, hf, hss, hcs]

theorem vadLoop_run_pre (cfg : VadCfg) (orc : List Nat → Bool) (bs : List (List Nat))
    (rest : List (Except String (List Nat))) (acc : List (List Nat)) (cs fws : Nat)
    (hall : ∀ b ∈ bs, orc b = false ∧ b.length = cfg.bpf) (hb : 0 < cfg.bpf)
    (hto : fws + bs.length < cfg.timeoutFrames) :
    vadLoop cfg orc (bs.map .ok ++ rest) ⟨acc, cs, false, fws⟩ =
      vadLoop cfg orc rest ⟨acc ++ bs, cs + bs.length, false, fws + bs.length⟩ := by
  induction bs generalizing acc cs fws with
  | nil => simp
  | cons b bs ih =>
    obtain ⟨hf, hlen⟩ := hall b (by simp)
    rw [List.map_cons, List.cons_append,
      vadLoop_step_silence_pre cfg orc b _ ⟨acc, cs, false, fws⟩ hb hlen hf rfl
        (by simp at hto ⊢; omega)]
    rw [ih (acc ++ [b]) (cs + 1) (fws + 1) (fun x hx => hall x (by simp [hx]))
      (by simp at hto ⊢; omega)]
    refine congrArg (vadLoop cfg orc rest) ?_
    simp [List.append_assoc]
    omega

theorem vadLoop_run_speech (cfg : VadCfg) (orc : List Nat → Bool) (bs : List (List Nat))
    (rest : List (Except String (List Nat))) (st : VadState)
    (hall : ∀ b ∈ bs, orc b = true ∧ b.length = cfg.bpf) (hb : 0 < cfg.bpf)
    (hne : bs ≠ []) :
    vadLoop cfg orc (bs.map .ok ++ rest) st =
      vadLoop cfg orc rest ⟨st.accumulated ++ bs, 0, true, 0⟩ := by
  induction bs generalizing st with
  | nil => cases hne rfl
  | cons b bs ih =>
    obtain ⟨ht, hlen⟩ := hall b (by simp)
    rw [List.map_cons, List.cons_append, vadLoop_step_speech cfg orc b _ st hb hlen ht]
    by_cases hbs : bs = []
    · subst hbs
      simp
    · rw [ih ⟨st.accumulated ++ [b], 0, true, 0⟩ (fun x hx => hall x (by simp [hx])) hbs]
      refine congrArg (vadLoop cfg orc rest) ?_
      simp [List.append_assoc]

theorem vadLoop_run_post (cfg : VadCfg) (orc : List Nat → Bool) (bs : List (List Nat))
    (rest : List (Except String (List Nat))) (acc : List (List Nat)) (cs : Nat)
    (hall : ∀ b ∈ bs, orc b = false ∧ b.length = cfg.bpf) (hb : 0 < cfg.bpf)
    (hcs : cs + bs.length < cfg.stopThresh) :
    vadLoop cfg orc (bs.map .ok ++ rest) ⟨acc, cs, true, 0⟩ =
      vadLoop cfg orc rest ⟨acc ++ bs, cs + bs.length, true, 0⟩ := by
  induction bs generalizing acc cs with
  | nil => simp
  | cons b bs ih =>
    obtain ⟨hf, hlen⟩ := hall b (by simp)
    rw [List.map_cons, List.cons_append,
      vadLoop_step_silence_post cfg orc b _ ⟨acc, cs, true, 0⟩ hb hlen hf rfl
        (by simp at hcs ⊢; omega)]
    rw [ih (acc ++ [b]) (cs + 1) (fun x hx => hall x (by simp [hx]))
      (by simp at hcs ⊢; omega)]
    refine congrArg (vadLoop cfg orc rest) ?_
    simp [List.append_assoc]
    omega

theorem vadLoop_through_presp (cfg : VadCfg) (orc : List Nat → Bool)
    (pre sp : List (List Nat)) (rest : List (Except String (List Nat)))
    (hb : 0 < cfg.bpf)
    (hpre : ∀ b ∈ pre, orc b = false ∧ b.length = cfg.bpf)
    (hsp : ∀ b ∈ sp, orc b = true ∧ b.length = cfg.bpf)
    (hspne : sp ≠ [])
    (hto : pre.length < cfg.timeoutFrames) :
    vadLoop cfg orc (pre.map .ok ++ sp.map .ok ++ rest) initialVadState =
      vadLoop cfg orc rest ⟨pre ++ sp, 0, true, 0⟩ := by
  show vadLoop cfg orc (pre.map Except.ok ++ sp.map Except.ok ++ rest) ⟨[], 0, false, 0⟩ = _
  have h1 := vadLoop_run_pre cfg orc pre (sp.map Except.ok ++ rest) [] 0 0 hpre hb (by omega)
  rw [List.append_assoc, h1]
  simp only [List.nil_append, Nat.zero_add]
  rw [vadLoop_run_speech cfg orc sp rest ⟨pre, pre.length, false, pre.length⟩ hsp hb hspne]

theorem vadLoop_fires_at_stop (cfg : VadCfg) (orc : List Nat → Bool)
    (pre sp t74 : List (List Nat)) (b75 : List Nat)
    (hb : 0 < cfg.bpf)
    (hpre : ∀ b ∈ pre, orc b = false ∧ b.length = cfg.bpf)
    (hsp : ∀ b ∈ sp, orc b = true ∧ b.length = cfg.bpf)
    (hspne : sp ≠ [])
    (hto : pre.length < cfg.timeoutFrames)
    (ht74 : ∀ b ∈ t74, orc b = false ∧ b.length = cfg.bpf)
    (ht74len : t74.length + 1 = cfg.stopThresh)
    (hb75 : orc b75 = false ∧ b75.length = cfg.bpf) :
    vadLoop cfg orc ((pre ++ sp ++ (t74 ++ [b75])).map Except.ok) initialVadState =
      .finished (finalizeCapture cfg (pre ++ sp ++ t74 ++ [[]])) := by
  have hmaps : (pre ++ sp ++ (t74 ++ [b75])).map
        (Except.ok : List Nat → Except String (List Nat)) =
      pre.map Except.ok ++ sp.map Except.ok ++
        (t74.map Except.ok ++ [Except.ok b75]) := by
    simp [List.map_append, List.append_assoc]
  rw [hmaps, vadLoop_through_presp cfg orc pre sp _ hb hpre hsp hspne hto]
  rw [vadLoop_run_post cfg orc t74 [Except.ok b75] (pre ++ sp) 0 ht74 hb (by omega)]
  rw [vadLoop_step_trigger cfg orc b75 [] ⟨(pre ++ sp) ++ t74, 0 + t74.length, true, 0⟩
    hb hb75.2 hb75.1 rfl (by simp only []; omega)]

theorem vadLoop_no_fire_before (cfg : VadCfg) (orc : List Nat → Bool)
    (pre sp postJ : List (List Nat))
    (hb : 0 < cfg.bpf)
    (hpre : ∀ b ∈ pre, orc b = false ∧ b.length = cfg.bpf)
    (hsp : ∀ b ∈ sp, orc b = true ∧ b.length = cfg.bpf)
    (hspne : sp ≠ [])
    (hto : pre.length < cfg.timeoutFrames)
    (hpj : ∀ b ∈ postJ, orc b = false ∧ b.length = cfg.bpf)
    (hlt : postJ.length < cfg.stopThresh) :
    vadLoop cfg orc ((pre ++ sp ++ postJ).map Except.ok) initialVadState =
      .outOfInput ⟨pre ++ sp ++ postJ, postJ.length, true, 0⟩ := by
  have hmaps : (pre ++ sp ++ postJ).map
        (Except.ok : List Nat → Except String (List Nat)) =
      pre.map Except.ok ++ sp.map Except.ok ++ (postJ.map Except.ok ++ []) := by
    simp [List.map_append, List.append_assoc]
  rw [hmaps, vadLoop_through_presp cfg orc pre sp _ hb hpre hsp hspne hto]
  rw [vadLoop_run_post cfg orc postJ [] (pre ++ sp) 0 hpj hb (by omega)]
  simp [vadLoop, List.append_assoc]

/-- **C4.** With `silenceStopMs = 1500` and `frameMs = 20`, the stop
threshold is `ceil(1500/20) = 75`: in continuous VAD mode, once at least
one sub-frame was classified as speech, the capture finalizes exactly when
75 consecutive silence sub-frames have accumulated — at the 75th such frame
and not with any fewer — and the buffer handed to the finalizer holds the
consumed blocks in arrival order up to, and not including, the triggering
silence sub-frame (the triggering block contributes only its empty
prefix). -/
theorem vad_silence_stop_exact
    (qds : List AudioDevice) (dflt idxc : Option Nat) (nmc : Option (List Char))
    (fm : Except String (List Nat)) (orc : List Nat → Bool)
    (sr stm : Nat) (tSq : ℚ) (pre sp post postJ : List (List Nat))
    (hb : 0 < sr * 20 / 1000 * 2)
    (hpre : ∀ b ∈ pre, orc b = false ∧ b.length = sr * 20 / 1000 * 2)
    (hsp : ∀ b ∈ sp, orc b = true ∧ b.length = sr * 20 / 1000 * 2)
    (hspne : sp ≠ [])
    (hto : pre.length < speechTimeoutFrames stm 20) :
    silenceFramesToStop 1500 20 = 75
      ∧ (post.length = 75 →
          (∀ b ∈ post, orc b = false ∧ b.length = sr * 20 / 1000 * 2) →
          recordAudioRun ⟨.ok qds, dflt, idxc, nmc, .vad, fm,
              (pre ++ sp ++ post).map Except.ok, orc, sr, 20, 1500, stm, tSq⟩ =
            .finished (finalizeCapture
              ⟨sr * 20 / 1000 * 2, 75, speechTimeoutFrames stm 20, sr, tSq⟩
              (pre ++ sp ++ post.take 74 ++ [[]])))
      ∧ (pre ++ sp ++ post.take 74 ++ [[]]).flatten = (pre ++ sp ++ post.take 74).flatten
      ∧ (∀ j, postJ.length = j → j < 75 →
          (∀ b ∈ postJ, orc b = false ∧ b.length = sr * 20 / 1000 * 2) →
          recordAudioRun ⟨.ok qds, dflt, idxc, nmc, .vad, fm,
              (pre ++ sp ++ postJ).map Except.ok, orc, sr, 20, 1500, stm, tSq⟩ =
            .outOfInput ⟨pre ++ sp ++ postJ, j, true, 0⟩) := by
  refine ⟨rfl, ?_, by simp, ?_⟩
  · intro hplen hpost
    obtain ⟨b75, hb75⟩ : ∃ x, post.drop 74 = [x] := by
      apply List.length_eq_one.mp
      rw [List.length_drop, hplen]
    have hsplit : post = post.take 74 ++ [b75] := by
      conv_lhs => rw [← List.take_append_drop 74 post]
      rw [hb75]
    have hrun : recordAudioRun ⟨.ok qds, dflt, idxc, nmc, .vad, fm,
        (pre ++ sp ++ post).map Except.ok, orc, sr, 20, 1500, stm, tSq⟩ =
        vadLoop (vadCfgOf ⟨.ok qds, dflt, idxc, nmc, .vad, fm,
          (pre ++ sp ++ post).map Except.ok, orc, sr, 20, 1500, stm, tSq⟩) orc
          ((pre ++ sp ++ post).map Except.ok) initialVadState := rfl
    have hcfg : vadCfgOf ⟨.ok qds, dflt, idxc, nmc, .vad, fm,
        (pre ++ sp ++ post).map Except.ok, orc, sr, 20, 1500, stm, tSq⟩ =
        ⟨sr * 20 / 1000 * 2, 75, speechTimeoutFrames stm 20, sr, tSq⟩ := by
      simp [vadCfgOf, normalizeVadFrameMs, silenceFramesToStop, speechTimeoutFrames]
    rw [hrun, hcfg]
    conv_lhs => rw [hsplit]
    refine vadLoop_fires_at_stop _ orc pre sp (post.take 74) b75 hb hpre hsp hspne hto
      (fun b hbm => hpost b (List.take_subset 74 post hbm)) ?_ ?_
    · show (post.take 74).length + 1 = 75
      rw [List.length_take, hplen]
      omega
    · refine hpost b75 ?_
      exact List.drop_subset 74 post (hb75 ▸ List.mem_singleton_self b75)
  · intro j hjlen hjlt hpj
    subst hjlen
    have hrun : recordAudioRun ⟨.ok qds, dflt, idxc, nmc, .vad, fm,
        (pre ++ sp ++ postJ).map Except.ok, orc, sr, 20, 1500, stm, tSq⟩ =
        vadLoop (vadCfgOf ⟨.ok qds, dflt, idxc, nmc, .vad, fm,
          (pre ++ sp ++ postJ).map Except.ok, orc, sr, 20, 1500, stm, tSq⟩) orc
          ((pre ++ sp ++ postJ).map Except.ok) initialVadState := rfl
    have hcfg : vadCfgOf ⟨.ok qds, dflt, idxc, nmc, .vad, fm,
        (pre ++ sp ++ postJ).map Except.ok, orc, sr, 20, 1500, stm, tSq⟩ =
        ⟨sr * 20 / 1000 * 2, 75, speechTimeoutFrames stm 20, sr, tSq⟩ := by
      simp [vadCfgOf, normalizeVadFrameMs, silenceFramesToStop, speechTimeoutFrames]
    rw [hrun, hcfg]
    exact vadLoop_no_fire_before _ orc pre sp postJ hb hpre hsp hspne hto hpj hjlt

/-- Witness for `vad_silence_stop_exact`: one pre-speech silence block, one
speech block, then 75 silence blocks at sample rate 100 (4-byte frames),
classifier "speech iff first byte is 1". -/
theorem vad_silence_stop_exact_witness :
    recordAudioRun ⟨.ok [], none, none, none, .vad, .ok [],
        (([[0, 0, 0, 0]] ++ [[1, 0, 0, 0]] ++ List.replicate 75 [0, 0, 0, 0]).map Except.ok),
        (fun b => decide (b.headD 0 = 1)), 100, 20, 1500, 10000, 0⟩ =
      .finished (finalizeCapture
        ⟨100 * 20 / 1000 * 2, 75, speechTimeoutFrames 10000 20, 100, 0⟩
        ([[0, 0, 0, 0]] ++ [[1, 0, 0, 0]] ++ (List.replicate 75 [0, 0, 0, 0]).take 74 ++ [[]])) :=
  (vad_silence_stop_exact [] none none none (.ok []) (fun b => decide (b.headD 0 = 1))
      100 10000 0 [[0, 0, 0, 0]] [[1, 0, 0, 0]] (List.replicate 75 [0, 0, 0, 0])
      (List.replicate 10 [0, 0, 0, 0]) (by decide) (by decide) (by decide) (by decide)
      (by decide)).2.1 (by decide) (by decide)

/-- **C10.** `record_audio` is total at its interface: its body runs under
`try`/`except Exception`, so every raised exception (driver error, device
enumeration failure, anything internal) becomes `None`, a speech timeout
and a silent capture return `None`, a successful capture returns the WAV
bytes, and in every environment the result is either `None` or some WAV
byte string — an exception never propagates to the caller. -/
theorem recordAudio_total (env : RecordEnv) :
    (∀ e, recordAudioRun env = .raised e → recordAudio env = none)
      ∧ (recordAudioRun env = .finished none → recordAudio env = none)
      ∧ (∀ w, recordAudioRun env = .finished (some w) → recordAudio env = some w)
      ∧ (∀ st, recordAudioRun env = .outOfInput st → recordAudio env = none)
      ∧ (∀ e, env.queryDevices = .error e → recordAudio env = none)
      ∧ (recordAudio env = none ∨ ∃ w, recordAudio env = some w) := by
  refine ⟨?_, ?_, ?_, ?_, ?_, ?_⟩
  · intro e h
    simp [recordAudio, h]
  · intro h
    simp [recordAudio, h]
  · intro w h
    simp [recordAudio, h]
  · intro st h
    simp [recordAudio, h]
  · intro e h
    simp [recordAudio, recordAudioRun, h]
  · cases hr : recordAudio env with
    | none => exact Or.inl rfl
    | some w => exact Or.inr ⟨w, rfl⟩

/-- An environment whose device enumeration raises. -/
def envErr : RecordEnv :=
  ⟨.error "portaudio unavailable", none, none, none, .vad, .ok [], [],
   fun _ => false, 16000, 20, 1500, 10000, 1 / 1000000⟩

/-- Witness for `recordAudio_total`: a raising device enumeration yields
`None`. -/
theorem recordAudio_total_witness : recordAudio envErr = none :=
  (recordAudio_total envErr).2.2.2.2.1 "portaudio unavailable" rfl

/-- A fixed-mode environment that captures 64 all-zero bytes with the
default silence threshold 0.001 (its square `1/1000000`). -/
def envSilent : RecordEnv :=
  ⟨.ok [⟨['m', 'i', 'c'], 1⟩], some 0, none, none, .fixed, .ok (List.replicate 64 0), [],
   fun _ => false, 16000, 20, 1500, 10000, 1 / 1000000⟩

/-- A VAD-mode environment in which no speech arrives within the timeout
(sample rate 100, so 4-byte frames; timeout one frame). -/
def envTimeout : RecordEnv :=
  ⟨.ok [⟨['m', 'i', 'c'], 1⟩], some 0, none, none, .vad, .ok [],
   [.ok (List.replicate 4 0)], fun _ => false, 100, 20, 1500, 20, 1 / 1000000⟩

theorem bytesToI16_replicate_zero (n : Nat) :
    bytesToI16 (List.replicate n 0) = List.replicate (n / 2) 0 := by
  induction n using Nat.strong_induction_on with
  | _ n ih =>
    match n with
    | 0 => rfl
    | 1 => rfl
    | Nat.succ (Nat.succ m) =>
      have h := ih m (by omega)
      have h2 : (m + 2) / 2 = m / 2 + 1 := by omega
      simp only [List.replicate_succ, bytesToI16, h, h2]
      simp [i16OfBytes]

theorem computeRmsSq_replicate_zero (n : Nat) :
    computeRmsSq (List.replicate n 0) = 0 := by
  unfold computeRmsSq
  split
  · rfl
  · rw [bytesToI16_replicate_zero]
    have hs : ((List.replicate (n / 2) (0 : Int)).map (fun s => s * s)).sum = 0 := by
      simp
    rw [hs]
    simp

/-- **C2 counterexample.** A silent fixed-mode capture and a no-speech VAD
timeout both return `None`: the capture result is identical in the two
cases, so a caller cannot tell the "mic silent" outcome apart from the
"no speech heard" timeout from the capture result (the distinction exists
only in the log). -/
theorem mic_silent_outcome_counterexample :
    recordAudio envSilent = none
      ∧ recordAudio envTimeout = none
      ∧ recordAudio envSilent = recordAudio envTimeout := by
  have hrms := computeRmsSq_replicate_zero 64
  have hrun : recordAudioRun envSilent = .finished none := by
    show (if computeRmsSq (List.replicate 64 0) < (1 / 1000000 : ℚ) then RunOutcome.finished none
          else .finished (some (buildWavFromMonoBytes 16000 (List.replicate 64 0)))) =
        .finished none
    rw [if_pos (by rw [hrms]; norm_num)]
  have hs : recordAudio envSilent = none := by
    simp [recordAudio, hrun]
  have ht : recordAudio envTimeout = none := rfl
  exact ⟨hs, ht, by rw [hs, ht]⟩

/-- **C2 amended.** After capture completes, in both modes, a normalized
RMS below the configured threshold makes the capture discard the buffer and
return `None` — the same outcome as the speech timeout, distinguished only
in logging, not in the capture result. -/
theorem silent_capture_returns_none (env : RecordEnv) (ds : List AudioDevice)
    (mono : List Nat) (hq : env.queryDevices = .ok ds) (hmode : env.mode = .fixed)
    (hm : env.fixedMono = .ok mono) (hsilent : computeRmsSq mono < env.threshSq) :
    recordAudio env = none
      ∧ (∀ (cfg : VadCfg) (chunks : List (List Nat)),
          cfg.bpf ≤ chunks.flatten.length → computeRmsSq chunks.flatten < cfg.threshSq →
          finalizeCapture cfg chunks = none) := by
  constructor
  · simp [recordAudio, recordAudioRun, hq, hmode, hm, hsilent]
  · intro cfg chunks h1 h2
    simp only [finalizeCapture]
    rw [if_pos ⟨h1, h2⟩]

/-- Witness for `silent_capture_returns_none` on the all-zero fixed capture
and an all-zero VAD segment. -/
theorem silent_capture_returns_none_witness :
    recordAudio envSilent = none
      ∧ finalizeCapture ⟨2, 75, 500, 100, 1 / 1000000⟩ [[0, 0]] = none :=
  ⟨(silent_capture_returns_none envSilent [⟨['m', 'i', 'c'], 1⟩] (List.replicate 64 0)
      rfl rfl rfl
      (by rw [computeRmsSq_replicate_zero]; norm_num [envSilent])).1,
   (silent_capture_returns_none envSilent [⟨['m', 'i', 'c'], 1⟩] (List.replicate 64 0)
      rfl rfl rfl
      (by rw [computeRmsSq_replicate_zero]; norm_num [envSilent])).2
      ⟨2, 75, 500, 100, 1 / 1000000⟩ [[0, 0]] (by decide)
      (by rw [show ([[0, 0]] : List (List Nat)).flatten = List.replicate 2 0 from rfl,
            computeRmsSq_replicate_zero]
          norm_num)⟩

end Clara
